import Mathlib

/-!
Verification of the cockpit TLS front-end server (`src/tls`) against its
natural-language specification.  The repository ships the test suite
`src/tls/test-server.c`; the server implementation itself (`server.c` /
`server.h`, providing `server_init`, `server_run`, `server_poll_event`,
`server_num_connections`, `server_cleanup`) is not present, so the server
is modelled here from the specification, faithful to its words, and the
claims are settled against that model.
-/

namespace CockpitTls

/-- Modelled from the spec: client-certificate policy flag of `TLSConfig`
(§3, §4.1) — the implementation enum `ClientCertMode` from the missing
`server.h` (`CERT_NONE` / `CERT_REQUEST` in `test-server.c`). -/
inductive ClientCertMode where
  | NONE
  | REQUEST
deriving DecidableEq, Repr

/-- Modelled from the spec: an X.509 certificate as the credential store and
handshake engine observe it — its byte identity, the identity of the key it
certifies, and whether it is within its validity period (§4.1, §4.3 list
"expired" among validation failures).  The on-disk parsing itself is missing
from the sources. -/
structure Certificate where
  bytes : List Nat
  keyId : Nat
  notExpired : Bool
deriving DecidableEq, Repr

/-- Modelled from the spec: a private key block as found in a PEM file
(§4.1); `keyId` identifies which certificates it matches. -/
structure PrivateKey where
  bytes : List Nat
  keyId : Nat
deriving DecidableEq, Repr

/-- Modelled from the spec: one block of a PEM file — either a certificate
or a private key (§4.1, §6: "a single file may hold a certificate chain
(multiple certificates) and/or a private key"). -/
inductive PemBlock where
  | cert (c : Certificate)
  | key (k : PrivateKey)
deriving DecidableEq, Repr

/-- The certificates of a PEM file, in file order. -/
def pemCerts (f : List PemBlock) : List Certificate :=
  f.filterMap fun b => match b with
    | .cert c => some c
    | .key _ => none

/-- The private keys of a PEM file. -/
def pemKeys (f : List PemBlock) : List PrivateKey :=
  f.filterMap fun b => match b with
    | .cert _ => none
    | .key k => some k

/-- Modelled from the spec: `TLSConfig` (§3) — certificate chain, private
key, client-certificate mode.  Immutable after construction. -/
structure TLSConfig where
  certificate_chain : List Certificate
  private_key : PrivateKey
  client_cert_mode : ClientCertMode
deriving DecidableEq, Repr

/-- Modelled from the spec: the error taxonomy entry `CredentialError`
(§4.1, §7) — unreadable file, malformed PEM, key/certificate mismatch. -/
inductive CredentialError where
  | unreadable
  | malformedPem
  | keyMismatch
deriving DecidableEq, Repr

/-- Modelled from the spec: the credential store contract
`load(cert_path, key_path_or_none) -> TLSConfig | Error` (§4.1), absent from
the sources.  With a separate key file the certificate file holds one or
more certificates; without one, the single file holds both the key and the
certificate block(s) and the loader separates them.  The leaf (first)
certificate must match the key. -/
def load (certFile : List PemBlock) (keyFile : Option (List PemBlock))
    (mode : ClientCertMode) : Except CredentialError TLSConfig :=
  match keyFile with
  | some kf =>
    match pemCerts certFile, pemKeys kf with
    | c :: cs, [k] =>
      if c.keyId = k.keyId then .ok ⟨c :: cs, k, mode⟩ else .error .keyMismatch
    | _, _ => .error .malformedPem
  | none =>
    match pemCerts certFile, pemKeys certFile with
    | c :: cs, [k] =>
      if c.keyId = k.keyId then .ok ⟨c :: cs, k, mode⟩ else .error .keyMismatch
    | _, _ => .error .malformedPem

/-- Modelled from the spec: the minimal HTTP request the router looks at —
only the request line (path) and the `Host` header (§4.4 "Parses only the
request line and the `Host` header"). -/
structure HttpRequest where
  path : String
  host : Option String
deriving DecidableEq, Repr

/-- Modelled from the spec: the three listener roles (§3 `ListenerSocket.kind`,
§4.2). -/
inductive ListenerKind where
  | PLAIN
  | TLS
  | REDIRECT_ONLY
deriving DecidableEq, Repr

/-- Modelled from the spec: the content-security-policy origins attached to a
successful response, scoped to the serving scheme (§6: "`ws`/`http` vs
`wss`/`https`", `test-server.c` asserts `http://localhost ws://localhost`
resp. `https://localhost wss://localhost`). -/
def cspOrigins (tls : Bool) (host : String) : List String :=
  [(if tls then "https" else "http") ++ "://" ++ host,
   (if tls then "wss" else "ws") ++ "://" ++ host]

/-- Modelled from the spec: the wire-visible response forms (§6, §4.4, §7):
`200 OK` with a scheme-scoped CSP header, `404 Not Found`, `301 Moved
Permanently` with a `Location`, and the minimal `400` for a missing `Host`. -/
inductive HttpResponse where
  | ok (csp : List String)
  | notFound
  | movedPermanently (location : String)
  | badRequest
deriving DecidableEq, Repr

/-- Modelled from the spec: the backend worker's reply as relayed to the
client (§4.5, out-of-scope component seen only at its interface): a normal
document (`200 OK`, carrying the CSP header scoped to the connection's
serving scheme) when the document root is present, else `404 Not Found` —
the two outcomes `test-server.c` accepts in `assert_http`. -/
def backendResponse (tls : Bool) (host : String) (docRoot : Bool) : HttpResponse :=
  if docRoot then .ok (cspOrigins tls host) else .notFound

/-- Modelled from the spec: the request router's decision table (§4.4),
implemented in the missing `server.c`.  A missing or empty `Host` is a
routing error answered with a minimal `400`. -/
def route (origin : ListenerKind) (tlsConfigured : Bool) (req : HttpRequest)
    (docRoot : Bool) : HttpResponse :=
  match req.host with
  | none => .badRequest
  | some h =>
    if h = "" then .badRequest
    else
      match origin with
      | .PLAIN =>
        if tlsConfigured then .movedPermanently ("https://" ++ h)
        else backendResponse false h docRoot
      | .TLS => backendResponse true h docRoot
      | .REDIRECT_ONLY => .movedPermanently ("https://" ++ h)

/-- Modelled from the spec: where on the wire a TLS-layer failure becomes
visible to the client — at handshake completion, or only at the first
subsequent read/write (§8; `test-server.c` comment on TLS 1.3's two-step
handshake in `test_tls_client_cert_expired`). -/
inductive FailurePoint where
  | atHandshake
  | atFirstReadWrite
deriving DecidableEq, Repr

/-- Modelled from the spec: handshake-engine result for one connection —
either established, reporting the number of peer-visible server
certificates, or failed at some point (§4.3). -/
inductive HsResult where
  | established (serverCertsSeen : Nat) (clientCert : Option Certificate)
  | failed (p : FailurePoint)
deriving DecidableEq, Repr

/-- Modelled from the spec: the TLS handshake engine (§4.3), missing from the
sources.  The server chain is offered (the peer sees exactly the configured
chain); under `NONE` no client certificate is solicited; under `REQUEST` a
certificate is requested but not required; an expired client certificate
surfaces as a TLS-layer failure — under a two-step (TLS 1.3) handshake only
at the first subsequent read/write. -/
def handshake (cfg : TLSConfig) (offer : Option Certificate) (tls13 : Bool) :
    HsResult :=
  match cfg.client_cert_mode, offer with
  | .NONE, _ => .established cfg.certificate_chain.length none
  | .REQUEST, none => .established cfg.certificate_chain.length none
  | .REQUEST, some c =>
    if c.notExpired then .established cfg.certificate_chain.length (some c)
    else .failed (if tls13 then .atFirstReadWrite else .atHandshake)

/-- Modelled from the spec: the connection-level protocol states of the
handshake state machine (§4.3). -/
inductive ConnState where
  | ACCEPTED
  | HANDSHAKING
  | ESTABLISHED
  | FAILED
deriving DecidableEq, Repr

/-- Terminal handshake state of a TLS connection (§4.3): `ESTABLISHED` on
success, `FAILED` on a certificate-validation or handshake failure. -/
def hsFinalState (cfg : TLSConfig) (offer : Option Certificate) (tls13 : Bool) :
    ConnState :=
  match handshake cfg offer tls13 with
  | .established _ _ => .ESTABLISHED
  | .failed _ => .FAILED

/-- Modelled from the spec: what one accepted peer brings to the server — a
connection identity, the transport it attempts (plain HTTP bytes, or a TLS
handshake with an optional offered client certificate), and its request
(§3 `Connection`).  `tls13` records which handshake flavour the peer speaks
(affecting only where a failure surfaces, §4.3/§8). -/
inductive ConnTransport where
  | plainReq (req : HttpRequest)
  | tlsReq (offer : Option Certificate) (req : HttpRequest) (tls13 : Bool)
deriving DecidableEq, Repr

/-- A connection specification: identity plus attempted transport. -/
structure ConnSpec where
  id : Nat
  transport : ConnTransport
deriving DecidableEq, Repr

/-- Modelled from the spec: the client-observable outcome of one connection —
either the connection is dropped at the TLS layer with no response bytes
(§7: "malformed TLS handshake input produces only a dropped connection (no
response)"), or an HTTP response is delivered, over TLS also exposing how
many server certificates the peer saw (§4.3). -/
inductive ConnOutcome where
  | dropped (p : FailurePoint)
  | reply (serverCertsSeen : Option Nat) (r : HttpResponse)
deriving DecidableEq, Repr

/-- Whether any response bytes were sent on the connection. -/
def ConnOutcome.sentResponse : ConnOutcome → Bool
  | .dropped _ => false
  | .reply _ _ => true

/-- Modelled from the spec: full handling of one connection by the missing
`server.c`, as a function of the immutable server configuration and the
connection alone (§5: TLSConfig is shared read-only; the Event Loop is sole
mutator; within a connection handshake, routing and relay happen strictly in
sequence).  A plain connection goes through the router with `tlsConfigured`
set by whether TLS is configured; a TLS handshake against a server without
TLS is malformed input on the plain listener and is dropped; with TLS, the
handshake engine runs first and, once `ESTABLISHED`, decrypted bytes are
routed from the HTTPS listener. -/
def handleConnection (tlsConfig : Option TLSConfig) (docRoot : Bool)
    (c : ConnSpec) : ConnOutcome :=
  match c.transport with
  | .plainReq req => .reply none (route .PLAIN tlsConfig.isSome req docRoot)
  | .tlsReq offer req tls13 =>
    match tlsConfig with
    | none => .dropped .atHandshake
    | some cfg =>
      match handshake cfg offer tls13 with
      | .failed p => .dropped p
      | .established n _ => .reply (some n) (route .TLS true req docRoot)

/-- Modelled from the spec: the process-wide `ServerState` (§3, §4.6) of the
missing `server.c` — immutable TLS configuration, listener liveness, the
connection table, the authoritative connection counter, the monotonic idle
timer (`none` = unstarted), the log of completed connections' outcomes in
completion order, and the (always empty, §4.6/§9) set of child processes
spawned by the core. -/
structure ServerState where
  tlsConfig : Option TLSConfig
  docRoot : Bool
  listening : Bool
  table : List ConnSpec
  counter : Nat
  idleElapsed : Option Nat
  outcomes : List (Nat × ConnOutcome)
  childPids : List Nat
deriving DecidableEq, Repr

/-- Modelled from the spec: `num_connections()` (§6) — the current
live-connection count maintained by the event loop. -/
def server_num_connections (s : ServerState) : Nat := s.counter

/-- Modelled from the spec: the externally visible events one loop iteration
can dispatch (§4.6): accepting a new peer, and fully servicing-and-tearing-
down a live connection once its descriptor is ready. -/
inductive Event where
  | accept (c : ConnSpec)
  | handle (id : Nat)
deriving DecidableEq, Repr

/-- The connection with the given id in the table, if any. -/
def findConn (s : ServerState) (id : Nat) : Option ConnSpec :=
  s.table.find? fun c => c.id = id

/-- Modelled from the spec: one event-loop dispatch (§4.6).  On accept, the
connection enters the table, the counter is incremented and the idle timer
resets to unstarted; a descriptor id is never reused while live, so an
accept colliding with a live id is refused.  On full teardown the
connection's outcome (computed solely from the immutable configuration and
the connection, §5) is delivered, the connection leaves the table and the
counter is decremented.  Per-connection failures are swallowed into the
close (§7). -/
def step (s : ServerState) (e : Event) : ServerState :=
  match e with
  | .accept c =>
    if s.listening ∧ findConn s c.id = none then
      { s with table := s.table ++ [c], counter := s.counter + 1,
               idleElapsed := none }
    else s
  | .handle id =>
    match findConn s id with
    | none => s
    | some c =>
      { s with table := s.table.eraseP (fun d => d.id = id),
               counter := s.counter - 1,
               outcomes := s.outcomes ++
                 [(id, handleConnection s.tlsConfig s.docRoot c)] }

/-- A sequence of loop iterations driven by a list of events. -/
def runEvents (s : ServerState) (evs : List Event) : ServerState :=
  evs.foldl step s

/-- Modelled from the spec: `init(activation_dir, port, cert, key, mode)`
(§6) restricted to the parts the claims observe — credentials are loaded
(fatally failing on `CredentialError`), the listener set is bound, the
connection table starts empty, the counter at zero, the idle timer
unstarted, and no child process is spawned by the core (§4.6/§9). -/
def server_init (certFile : Option (List PemBlock))
    (keyFile : Option (List PemBlock)) (mode : ClientCertMode)
    (docRoot : Bool) : Except CredentialError ServerState :=
  match certFile with
  | none =>
    .ok ⟨none, docRoot, true, [], 0, none, [], []⟩
  | some cf =>
    match load cf keyFile mode with
    | .error e => .error e
    | .ok cfg => .ok ⟨some cfg, docRoot, true, [], 0, none, [], []⟩

/-- Modelled from the spec: `cleanup()` (§6, §3) — releases all listeners and
connections; afterwards new connection attempts must be refused. -/
def server_cleanup (s : ServerState) : ServerState :=
  { s with listening := false, table := [], counter := 0, idleElapsed := none }

/-- Modelled from the spec: a TCP connection attempt against the server's
bound address — accepted while the listeners are live, refused immediately
(ECONNREFUSED) once they are closed (§6 `cleanup`). -/
inductive ConnectResult where
  | accepted
  | refused
deriving DecidableEq, Repr

/-- Outcome of a fresh connection attempt against the bound address. -/
def connectAttempt (s : ServerState) : ConnectResult :=
  if s.listening then .accepted else .refused

/-- Modelled from the spec: the idle-shutdown loop `run(idle_timeout)` (§4.6,
§6) with no external events pending: each iteration, while the connection
counter is zero the monotonic idle timer starts or advances by one tick;
once it has exceeded the threshold the call returns the final state.  A
nonzero counter keeps the timer unstarted.  The fuel bounds the number of
iterations modelled; `none` means the call had not returned within them. -/
def server_run : Nat → ServerState → Nat → Option ServerState
  | 0, _, _ => none
  | fuel + 1, s, idleTimeout =>
    if s.counter = 0 then
      match s.idleElapsed with
      | none => server_run fuel { s with idleElapsed := some 0 } idleTimeout
      | some e =>
        if idleTimeout ≤ e then some s
        else server_run fuel { s with idleElapsed := some (e + 1) } idleTimeout
    else server_run fuel { s with idleElapsed := none } idleTimeout

/-! ### Concrete credential fixtures

Abstract stand-ins for the PEM fixtures the test suite uses:
`mock-server.crt` / `mock-server.key` (separate files), `mock_cert`
(combined key+certificate file) and `cert-chain.cert` (a combined file whose
chain holds two certificates, per the comment in `test_tls_cert_chain`). -/

/-- The mock server certificate (leaf). -/
def mockServerCert : Certificate := ⟨[1], 10, true⟩

/-- The mock server private key, matching `mockServerCert`. -/
def mockServerKey : PrivateKey := ⟨[2], 10⟩

/-- The issuer certificate appearing second in the chain file. -/
def chainIssuerCert : Certificate := ⟨[3], 11, true⟩

/-- Separate-layout certificate file: one certificate. -/
def fixtureSeparateCertFile : List PemBlock := [.cert mockServerCert]

/-- Separate-layout key file: one private key. -/
def fixtureSeparateKeyFile : List PemBlock := [.key mockServerKey]

/-- Combined layout: one file holding the certificate and the key. -/
def fixtureCombinedFile : List PemBlock :=
  [.cert mockServerCert, .key mockServerKey]

/-- Chain layout: one file holding a two-certificate chain and the key. -/
def fixtureChainFile : List PemBlock :=
  [.cert mockServerCert, .cert chainIssuerCert, .key mockServerKey]

/-- A mock client certificate within its validity period. -/
def mockClientCert : Certificate := ⟨[6], 30, true⟩

/-- The expired mock client certificate (`mock-client-expired.crt`). -/
def mockClientExpiredCert : Certificate := ⟨[7], 30, false⟩

/-- The request the tests send: `GET / HTTP/1.0` with `Host: localhost`. -/
def localhostRequest : HttpRequest := ⟨"/", some "localhost"⟩

/-- Is the response a normal (`200`/`404`) or redirect (`301`) response? -/
def normalOrRedirect : HttpResponse → Bool
  | .ok _ => true
  | .notFound => true
  | .movedPermanently _ => true
  | .badRequest => false

/-- Does the listener role terminate TLS (serve over `https`/`wss`)? -/
def servesTls : ListenerKind → Bool
  | .TLS => true
  | _ => false

/-- The number of server certificates a correctly-behaving client that
completes the handshake (offering no certificate) observes, if the
handshake establishes. -/
def handshakeCertsSeen (s : ServerState) (tls13 : Bool) : Option Nat :=
  match s.tlsConfig with
  | none => none
  | some cfg =>
    match handshake cfg none tls13 with
    | .established n _ => some n
    | .failed _ => none

/-- A plain-HTTP connection with the test request, identified by `i`. -/
def plainConn (i : Nat) : ConnSpec := ⟨i, .plainReq localhostRequest⟩

/-- A no-TLS server freshly initialized with a document root present. -/
def initNoTls : ServerState := ⟨none, true, true, [], 0, none, [], []⟩

/-- The event trace of `test_no_tls_many_parallel`: twenty concurrent
plain-HTTP connections accepted first, then each serviced and torn down. -/
def trace20 : List Event :=
  ((List.range 20).map fun i => .accept (plainConn i)) ++
  ((List.range 20).map fun i => .handle i)

/-- A complete, well-formed response delivered on a connection: response
bytes were sent and form a `200 OK` or `404 Not Found` document. -/
def wellFormedReply : ConnOutcome → Bool
  | .reply _ (.ok _) => true
  | .reply _ .notFound => true
  | _ => false

/-! ### C1 — plain listener: 301 iff TLS configured -/

/-- C1: for every plain-HTTP request on the plain listener (with a nonempty
`Host` header) the response is a `301 Moved Permanently` iff TLS is
configured; with TLS configured it is always the `301` whose `Location` is
the HTTPS form of the `Host`, regardless of the request path; without TLS it
is never a `301` but a normal (`200 OK`) or not-found (`404`) response. -/
theorem plain_listener_redirect_iff_tls
    (tls : Bool) (req : HttpRequest) (docRoot : Bool) (h : String)
    (hh : req.host = some h) (hne : h ≠ "") :
    ((∃ loc, route .PLAIN tls req docRoot = .movedPermanently loc) ↔ tls = true)
    ∧ (tls = true →
        route .PLAIN tls req docRoot = .movedPermanently ("https://" ++ h))
    ∧ (tls = false →
        route .PLAIN tls req docRoot = .ok (cspOrigins false h)
        ∨ route .PLAIN tls req docRoot = .notFound) := by
  cases tls <;> cases docRoot <;>
    simp [route, hh, hne, backendResponse]

/-- Witness for C1 at the concrete input of `test_tls_redirect` /
`test_no_tls_redirect`: path `/`, `Host: some.remote:1234`. -/
theorem plain_listener_redirect_iff_tls_witness :
    (((∃ loc, route .PLAIN true ⟨"/", some "some.remote:1234"⟩ true
          = .movedPermanently loc) ↔ true = true)
      ∧ (true = true →
          route .PLAIN true ⟨"/", some "some.remote:1234"⟩ true
            = .movedPermanently ("https://" ++ "some.remote:1234"))
      ∧ (true = false →
          route .PLAIN true ⟨"/", some "some.remote:1234"⟩ true
            = .ok (cspOrigins false "some.remote:1234")
          ∨ route .PLAIN true ⟨"/", some "some.remote:1234"⟩ true = .notFound))
    ∧ (((∃ loc, route .PLAIN false ⟨"/", some "some.remote:1234"⟩ true
          = .movedPermanently loc) ↔ false = true)
      ∧ (false = true →
          route .PLAIN false ⟨"/", some "some.remote:1234"⟩ true
            = .movedPermanently ("https://" ++ "some.remote:1234"))
      ∧ (false = false →
          route .PLAIN false ⟨"/", some "some.remote:1234"⟩ true
            = .ok (cspOrigins false "some.remote:1234")
          ∨ route .PLAIN false ⟨"/", some "some.remote:1234"⟩ true
            = .notFound)) :=
  ⟨plain_listener_redirect_iff_tls true ⟨"/", some "some.remote:1234"⟩ true
      "some.remote:1234" rfl (by decide),
   plain_listener_redirect_iff_tls false ⟨"/", some "some.remote:1234"⟩ true
      "some.remote:1234" rfl (by decide)⟩

/-! ### C2 — three credential layouts, peer-visible certificate count -/

/-- C2: for each of the three credential layouts — separate cert and key
files, combined cert+key file, two-certificate chain file — `server_init`
succeeds, and a client completing the handshake observes exactly the number
of certificates in the configured chain: 1, 1 and 2 respectively. -/
theorem credential_layouts_cert_count :
    (∃ s, server_init (some fixtureSeparateCertFile)
            (some fixtureSeparateKeyFile) .NONE true = .ok s
      ∧ (∃ cfg, s.tlsConfig = some cfg ∧ cfg.certificate_chain.length = 1)
      ∧ ∀ tls13, handshakeCertsSeen s tls13 = some 1)
    ∧ (∃ s, server_init (some fixtureCombinedFile) none .NONE true = .ok s
      ∧ (∃ cfg, s.tlsConfig = some cfg ∧ cfg.certificate_chain.length = 1)
      ∧ ∀ tls13, handshakeCertsSeen s tls13 = some 1)
    ∧ (∃ s, server_init (some fixtureChainFile) none .NONE true = .ok s
      ∧ (∃ cfg, s.tlsConfig = some cfg ∧ cfg.certificate_chain.length = 2)
      ∧ ∀ tls13, handshakeCertsSeen s tls13 = some 2) := by
  refine ⟨⟨_, rfl, ⟨_, rfl, rfl⟩, ?_⟩, ⟨_, rfl, ⟨_, rfl, rfl⟩, ?_⟩,
          ⟨_, rfl, ⟨_, rfl, rfl⟩, ?_⟩⟩ <;> intro tls13 <;> rfl

/-! ### C3 — REQUEST mode: no client certificate is still ESTABLISHED -/

/-- C3: under `client_cert_mode = REQUEST`, a peer that completes the
handshake without presenting a client certificate reaches `ESTABLISHED` and
receives a normal or redirect HTTP response (for a request with a nonempty
`Host`): requesting a certificate does not make one mandatory. -/
theorem request_mode_no_cert_established
    (cfg : TLSConfig) (tls13 : Bool) (docRoot : Bool) (req : HttpRequest)
    (id : Nat) (h : String)
    (hmode : cfg.client_cert_mode = .REQUEST)
    (hh : req.host = some h) (hne : h ≠ "") :
    hsFinalState cfg none tls13 = .ESTABLISHED
    ∧ ∃ r, handleConnection (some cfg) docRoot ⟨id, .tlsReq none req tls13⟩
            = .reply (some cfg.certificate_chain.length) r
        ∧ normalOrRedirect r = true := by
  refine ⟨by simp [hsFinalState, handshake, hmode], ?_⟩
  cases docRoot <;>
    simp [handleConnection, handshake, hmode, route, hh, hne,
          backendResponse, normalOrRedirect]

/-- Witness for C3: the separate-files configuration with `CERT_REQUEST`
(fixture of `test_tls_client_cert`), the test request, connection id 0. -/
theorem request_mode_no_cert_established_witness :
    hsFinalState ⟨[mockServerCert], mockServerKey, .REQUEST⟩ none true
        = .ESTABLISHED
    ∧ ∃ r, handleConnection (some ⟨[mockServerCert], mockServerKey, .REQUEST⟩)
            true ⟨0, .tlsReq none localhostRequest true⟩
          = .reply (some (TLSConfig.certificate_chain
              ⟨[mockServerCert], mockServerKey, .REQUEST⟩).length) r
        ∧ normalOrRedirect r = true :=
  request_mode_no_cert_established ⟨[mockServerCert], mockServerKey, .REQUEST⟩
    true true localhostRequest 0 "localhost" rfl rfl (by decide)

/-! ### C4 — expired client certificate: TLS-layer failure, no response -/

/-- C4: when the peer presents an expired client certificate under
`client_cert_mode = REQUEST`, the connection fails at the TLS layer — at
handshake completion for a pre-TLS-1.3 handshake, at the first subsequent
read/write for TLS 1.3 — and the client never observes an HTTP response. -/
theorem expired_client_cert_tls_failure
    (cfg : TLSConfig) (c : Certificate) (tls13 : Bool) (docRoot : Bool)
    (req : HttpRequest) (id : Nat)
    (hmode : cfg.client_cert_mode = .REQUEST)
    (hexp : c.notExpired = false) :
    (∃ p, handleConnection (some cfg) docRoot ⟨id, .tlsReq (some c) req tls13⟩
        = .dropped p)
    ∧ (∀ n r, handleConnection (some cfg) docRoot
          ⟨id, .tlsReq (some c) req tls13⟩ ≠ .reply n r)
    ∧ (tls13 = false → handleConnection (some cfg) docRoot
          ⟨id, .tlsReq (some c) req tls13⟩ = .dropped .atHandshake)
    ∧ (tls13 = true → handleConnection (some cfg) docRoot
          ⟨id, .tlsReq (some c) req tls13⟩ = .dropped .atFirstReadWrite) := by
  cases tls13 <;>
    simp [handleConnection, handshake, hmode, hexp]

/-- Witness for C4 at the fixture of `test_tls_client_cert_expired`: the
`CERT_REQUEST` server and the expired mock client certificate, under a
TLS 1.3 handshake. -/
theorem expired_client_cert_tls_failure_witness :
    (∃ p, handleConnection (some ⟨[mockServerCert], mockServerKey, .REQUEST⟩)
        true ⟨0, .tlsReq (some mockClientExpiredCert) localhostRequest true⟩
        = .dropped p)
    ∧ (∀ n r, handleConnection
          (some ⟨[mockServerCert], mockServerKey, .REQUEST⟩) true
          ⟨0, .tlsReq (some mockClientExpiredCert) localhostRequest true⟩
          ≠ .reply n r)
    ∧ (true = false → handleConnection
          (some ⟨[mockServerCert], mockServerKey, .REQUEST⟩) true
          ⟨0, .tlsReq (some mockClientExpiredCert) localhostRequest true⟩
          = .dropped .atHandshake)
    ∧ (true = true → handleConnection
          (some ⟨[mockServerCert], mockServerKey, .REQUEST⟩) true
          ⟨0, .tlsReq (some mockClientExpiredCert) localhostRequest true⟩
          = .dropped .atFirstReadWrite) :=
  expired_client_cert_tls_failure ⟨[mockServerCert], mockServerKey, .REQUEST⟩
    mockClientExpiredCert true true localhostRequest 0 rfl rfl

/-! ### C9 — 200 OK responses carry a scheme-scoped CSP header -/

/-- C9: every successful (`200 OK`) response produced by the router carries a
content-security-policy scoped to the connection's serving scheme: the
`http`/`ws` forms of the `Host` on a plain connection, the `https`/`wss`
forms on a TLS-terminated one. -/
theorem ok_response_csp_scoped
    (origin : ListenerKind) (tls : Bool) (req : HttpRequest) (docRoot : Bool)
    (csp : List String)
    (hok : route origin tls req docRoot = .ok csp) :
    ∃ h, req.host = some h ∧ h ≠ ""
      ∧ csp = cspOrigins (servesTls origin) h := by
  cases hh : req.host with
  | none => simp [route, hh] at hok
  | some h =>
    by_cases hne : h = ""
    · simp [route, hh, hne] at hok
    · refine ⟨h, rfl, hne, ?_⟩
      cases origin <;> cases tls <;> cases docRoot <;>
        simp_all [route, backendResponse, servesTls, cspOrigins]

/-- Witness for C9: the plain no-TLS request of `assert_http` yields a `200`
whose CSP origins are `http://localhost` and `ws://localhost`. -/
theorem ok_response_csp_scoped_witness :
    ∃ h, localhostRequest.host = some h ∧ h ≠ ""
      ∧ cspOrigins false "localhost" = cspOrigins (servesTls .PLAIN) h :=
  ok_response_csp_scoped .PLAIN false localhostRequest true
    (cspOrigins false "localhost") rfl

/-! ### Event-loop lemmas shared by the stateful claims -/

/-- One loop dispatch preserves the counter/table-size invariant (§3 (a)). -/
theorem step_preserves_counter (s : ServerState) (e : Event)
    (h : s.counter = s.table.length) :
    (step s e).counter = (step s e).table.length := by
  cases e with
  | accept c =>
    by_cases hcond : s.listening ∧ findConn s c.id = none
    · simp [step, if_pos hcond, h]
    · simp [step, if_neg hcond, h]
  | handle id =>
    cases hfind : findConn s id with
    | none => simpa [step, hfind] using h
    | some c =>
      have hmem : c ∈ s.table := List.mem_of_find?_eq_some hfind
      have hp := List.find?_some hfind
      simp only [step, hfind]
      rw [List.length_eraseP_of_mem hmem hp, h]

/-- Any event sequence preserves the counter/table-size invariant. -/
theorem runEvents_preserves_counter (evs : List Event) (s : ServerState)
    (h : s.counter = s.table.length) :
    (runEvents s evs).counter = (runEvents s evs).table.length := by
  induction evs generalizing s with
  | nil => exact h
  | cons e evs ih => exact ih (step s e) (step_preserves_counter s e h)

/-- The core spawns no child processes: no dispatch touches `childPids`. -/
theorem step_childPids (s : ServerState) (e : Event) :
    (step s e).childPids = s.childPids := by
  cases e with
  | accept c =>
    by_cases hcond : s.listening ∧ findConn s c.id = none
    · simp [step, if_pos hcond]
    · simp [step, if_neg hcond]
  | handle id => cases hfind : findConn s id <;> simp [step, hfind]

/-- No event sequence ever creates a child process. -/
theorem runEvents_childPids (evs : List Event) (s : ServerState) :
    (runEvents s evs).childPids = s.childPids := by
  induction evs generalizing s with
  | nil => rfl
  | cons e evs ih => exact (ih (step s e)).trans (step_childPids s e)

/-- A successful `server_init` yields a live listener set, an empty table, a
zero counter and no children. -/
theorem server_init_ok (certFile : Option (List PemBlock))
    (keyFile : Option (List PemBlock)) (mode : ClientCertMode)
    (docRoot : Bool) (s0 : ServerState)
    (hinit : server_init certFile keyFile mode docRoot = .ok s0) :
    s0.childPids = [] ∧ s0.table = [] ∧ s0.counter = 0
    ∧ s0.listening = true := by
  cases certFile with
  | none =>
    simp only [server_init, Except.ok.injEq] at hinit
    subst hinit
    exact ⟨rfl, rfl, rfl, rfl⟩
  | some cf =>
    simp only [server_init] at hinit
    cases hload : load cf keyFile mode with
    | error e => rw [hload] at hinit; cases hinit
    | ok cfg =>
      rw [hload] at hinit
      simp only [Except.ok.injEq] at hinit
      subst hinit
      exact ⟨rfl, rfl, rfl, rfl⟩

/-! ### C5 — per-connection error isolation -/

/-- C5: handling a connection whose TLS layer fails (for instance a TLS
handshake attempted against a server without a certificate) closes only
that connection and sends no response on it: every other table entry
survives, the listener set, configuration and document root are untouched
(so the loop stays live), and the outcome any other connection will receive
is unchanged. -/
theorem failing_connection_isolated
    (s : ServerState) (id : Nat) (c : ConnSpec) (p : FailurePoint)
    (hfind : findConn s id = some c)
    (hfail : handleConnection s.tlsConfig s.docRoot c = .dropped p) :
    (step s (.handle id)).listening = s.listening
    ∧ (step s (.handle id)).tlsConfig = s.tlsConfig
    ∧ (step s (.handle id)).docRoot = s.docRoot
    ∧ (step s (.handle id)).table = s.table.eraseP (fun d => d.id = id)
    ∧ (∀ d, d ∈ s.table → d.id ≠ id → d ∈ (step s (.handle id)).table)
    ∧ (step s (.handle id)).outcomes = s.outcomes ++ [(id, .dropped p)]
    ∧ (ConnOutcome.dropped p).sentResponse = false
    ∧ (∀ d, handleConnection (step s (.handle id)).tlsConfig
          (step s (.handle id)).docRoot d
          = handleConnection s.tlsConfig s.docRoot d) := by
  have hs : step s (.handle id) = { s with
      table := s.table.eraseP (fun d => d.id = id),
      counter := s.counter - 1,
      outcomes := s.outcomes
        ++ [(id, handleConnection s.tlsConfig s.docRoot c)] } := by
    simp only [step, hfind]
  rw [hs, hfail]
  refine ⟨rfl, rfl, rfl, rfl, ?_, rfl, rfl, fun d => rfl⟩
  intro d hd hne
  exact (List.mem_eraseP_of_neg (by simpa using hne)).mpr hd

/-- Witness for C5: a no-TLS server holding one connection that attempts a
TLS handshake (the situation of `test_tls_no_server_cert`), connection 0. -/
theorem failing_connection_isolated_witness :
    ((step ⟨none, true, true, [⟨0, .tlsReq none localhostRequest true⟩], 1,
        none, [], []⟩ (.handle 0)).listening
      = ServerState.listening ⟨none, true, true,
          [⟨0, .tlsReq none localhostRequest true⟩], 1, none, [], []⟩)
    ∧ ((step ⟨none, true, true, [⟨0, .tlsReq none localhostRequest true⟩], 1,
        none, [], []⟩ (.handle 0)).tlsConfig
      = ServerState.tlsConfig ⟨none, true, true,
          [⟨0, .tlsReq none localhostRequest true⟩], 1, none, [], []⟩)
    ∧ ((step ⟨none, true, true, [⟨0, .tlsReq none localhostRequest true⟩], 1,
        none, [], []⟩ (.handle 0)).docRoot
      = ServerState.docRoot ⟨none, true, true,
          [⟨0, .tlsReq none localhostRequest true⟩], 1, none, [], []⟩)
    ∧ ((step ⟨none, true, true, [⟨0, .tlsReq none localhostRequest true⟩], 1,
        none, [], []⟩ (.handle 0)).table
      = List.eraseP (fun d => d.id = 0)
          [⟨0, .tlsReq none localhostRequest true⟩])
    ∧ (∀ d, d ∈ [(⟨0, .tlsReq none localhostRequest true⟩ : ConnSpec)] →
        d.id ≠ 0 →
        d ∈ (step ⟨none, true, true,
          [⟨0, .tlsReq none localhostRequest true⟩], 1, none, [], []⟩
          (.handle 0)).table)
    ∧ ((step ⟨none, true, true, [⟨0, .tlsReq none localhostRequest true⟩], 1,
        none, [], []⟩ (.handle 0)).outcomes
      = [] ++ [(0, .dropped .atHandshake)])
    ∧ (ConnOutcome.dropped .atHandshake).sentResponse = false
    ∧ (∀ d, handleConnection
        (step ⟨none, true, true, [⟨0, .tlsReq none localhostRequest true⟩],
          1, none, [], []⟩ (.handle 0)).tlsConfig
        (step ⟨none, true, true, [⟨0, .tlsReq none localhostRequest true⟩],
          1, none, [], []⟩ (.handle 0)).docRoot d
        = handleConnection none true d) :=
  failing_connection_isolated
    ⟨none, true, true, [⟨0, .tlsReq none localhostRequest true⟩], 1,
      none, [], []⟩ 0 ⟨0, .tlsReq none localhostRequest true⟩ .atHandshake
    rfl rfl

/-! ### C6 — the connection counter invariant -/

/-- C6: the counter reported by `num_connections()` always equals the number
of live connections in the table — it is incremented on accept and
decremented on full teardown — and after twenty concurrent plain-HTTP
connections have each been accepted, serviced with a complete well-formed
response and fully closed, `num_connections()` returns 0. -/
theorem connection_counter_invariant
    (evs : List Event) (s : ServerState)
    (hinv : server_num_connections s = s.table.length) :
    server_num_connections (runEvents s evs)
      = (runEvents s evs).table.length
    ∧ (∀ c, s.listening = true → findConn s c.id = none →
        server_num_connections (step s (.accept c))
          = server_num_connections s + 1)
    ∧ (∀ id c, findConn s id = some c →
        server_num_connections (step s (.handle id))
          = server_num_connections s - 1)
    ∧ server_num_connections (runEvents initNoTls trace20) = 0
    ∧ (runEvents initNoTls trace20).outcomes.length = 20
    ∧ (runEvents initNoTls trace20).outcomes.all
        (fun x => wellFormedReply x.2) = true := by
  refine ⟨runEvents_preserves_counter evs s hinv, ?_, ?_,
    by decide, by decide, by decide⟩
  · intro c hl hf
    simp [step, server_num_connections, hl, hf]
  · intro id c hf
    simp [step, server_num_connections, hf]

/-- Witness for C6 at the freshly initialized no-TLS server and the
twenty-connection trace itself. -/
theorem connection_counter_invariant_witness :
    server_num_connections (runEvents initNoTls trace20)
      = (runEvents initNoTls trace20).table.length
    ∧ (∀ c, initNoTls.listening = true → findConn initNoTls c.id = none →
        server_num_connections (step initNoTls (.accept c))
          = server_num_connections initNoTls + 1)
    ∧ (∀ id c, findConn initNoTls id = some c →
        server_num_connections (step initNoTls (.handle id))
          = server_num_connections initNoTls - 1)
    ∧ server_num_connections (runEvents initNoTls trace20) = 0
    ∧ (runEvents initNoTls trace20).outcomes.length = 20
    ∧ (runEvents initNoTls trace20).outcomes.all
        (fun x => wellFormedReply x.2) = true :=
  connection_counter_invariant trace20 initNoTls rfl

/-! ### C7 — cleanup: refused connections, no unreaped children -/

/-- C7: after `cleanup()` returns — whatever events the server processed
since a successful `server_init` — a new connection attempt against the
previously bound address is refused immediately, every connection is gone,
and no child process of the core is left unreaped. -/
theorem cleanup_refuses_and_no_children
    (certFile : Option (List PemBlock)) (keyFile : Option (List PemBlock))
    (mode : ClientCertMode) (docRoot : Bool) (s0 : ServerState)
    (evs : List Event)
    (hinit : server_init certFile keyFile mode docRoot = .ok s0) :
    connectAttempt (server_cleanup (runEvents s0 evs)) = .refused
    ∧ (server_cleanup (runEvents s0 evs)).table = []
    ∧ (server_cleanup (runEvents s0 evs)).childPids = [] := by
  refine ⟨rfl, rfl, ?_⟩
  have h1 : (server_cleanup (runEvents s0 evs)).childPids
      = (runEvents s0 evs).childPids := rfl
  rw [h1, runEvents_childPids]
  exact (server_init_ok certFile keyFile mode docRoot s0 hinit).1

/-- Witness for C7: the no-TLS initialization followed by a full accept →
service → teardown cycle of one plain connection, then cleanup. -/
theorem cleanup_refuses_and_no_children_witness :
    connectAttempt (server_cleanup
        (runEvents initNoTls [.accept (plainConn 0), .handle 0])) = .refused
    ∧ (server_cleanup
        (runEvents initNoTls [.accept (plainConn 0), .handle 0])).table = []
    ∧ (server_cleanup
        (runEvents initNoTls
          [.accept (plainConn 0), .handle 0])).childPids = [] :=
  cleanup_refuses_and_no_children none none .NONE true initNoTls
    [.accept (plainConn 0), .handle 0] rfl

/-! ### C8 — idle-driven return of run(idle_timeout) -/

/-- With the idle timer already started at `e` ticks and no connections, the
loop returns within `t - e + 1` further iterations. -/
theorem server_run_from_started (t : Nat) :
    ∀ (fuel e : Nat) (s : ServerState), s.counter = 0 →
      s.idleElapsed = some e → t - e + 1 ≤ fuel →
      ∃ s2, server_run fuel s t = some s2 := by
  intro fuel
  induction fuel with
  | zero => intro e s _ _ hf; omega
  | succ n ih =>
    intro e s h0 he hf
    by_cases hte : t ≤ e
    · exact ⟨s, by simp [server_run, h0, he, hte]⟩
    · obtain ⟨s2, hs2⟩ := ih (e + 1) { s with idleElapsed := some (e + 1) }
        h0 rfl (by omega)
      exact ⟨s2, by simpa [server_run, h0, he, hte] using hs2⟩

/-- With no live connections, `run` returns within `t + 2` iterations. -/
theorem server_run_returns_of_idle (t fuel : Nat) (s : ServerState)
    (h0 : s.counter = 0) (hf : t + 2 ≤ fuel) :
    ∃ s2, server_run fuel s t = some s2 := by
  cases fuel with
  | zero => omega
  | succ n =>
    cases he : s.idleElapsed with
    | none =>
      obtain ⟨s2, hs2⟩ := server_run_from_started t n 0
        { s with idleElapsed := some 0 } h0 rfl (by omega)
      exact ⟨s2, by simpa [server_run, h0, he] using hs2⟩
    | some e =>
      by_cases hte : t ≤ e
      · exact ⟨s, by simp [server_run, h0, he, hte]⟩
      · obtain ⟨s2, hs2⟩ := server_run_from_started t n (e + 1)
          { s with idleElapsed := some (e + 1) } h0 rfl (by omega)
        exact ⟨s2, by simpa [server_run, h0, he, hte] using hs2⟩

/-- C8: `run(idle_timeout)` returns once the connection counter has been
zero for the idle duration — promptly (within `t + 2` iterations) when no
connections exist; after a connection is opened, serviced and fully closed
the counter is zero again and a subsequent `run` again returns promptly;
and any newly accepted connection resets the idle timer to unstarted. -/
theorem run_idle_returns
    (s : ServerState) (t : Nat) (c : ConnSpec)
    (hl : s.listening = true) (h0 : s.counter = 0) (ht : s.table = []) :
    (∃ s2, server_run (t + 2) s t = some s2)
    ∧ (step s (.accept c)).idleElapsed = none
    ∧ (runEvents s [.accept c, .handle c.id]).counter = 0
    ∧ (∃ s3, server_run (t + 2)
        (runEvents s [.accept c, .handle c.id]) t = some s3) := by
  have hfresh : findConn s c.id = none := by simp [findConn, ht]
  have hcount : (runEvents s [.accept c, .handle c.id]).counter = 0 := by
    simp [runEvents, step, findConn, ht, hl, h0, List.find?_cons]
  exact ⟨server_run_returns_of_idle t (t + 2) s h0 (by omega),
    by simp [step, hl, hfresh],
    hcount,
    server_run_returns_of_idle t (t + 2) _ hcount (by omega)⟩

/-- Witness for C8: the freshly initialized no-TLS server, idle timeout 0,
and plain connection 0 (the shape of `test_run_idle`). -/
theorem run_idle_returns_witness :
    (∃ s2, server_run (0 + 2) initNoTls 0 = some s2)
    ∧ (step initNoTls (.accept (plainConn 0))).idleElapsed = none
    ∧ (runEvents initNoTls
        [.accept (plainConn 0), .handle (plainConn 0).id]).counter = 0
    ∧ (∃ s3, server_run (0 + 2)
        (runEvents initNoTls
          [.accept (plainConn 0), .handle (plainConn 0).id]) 0 = some s3) :=
  run_idle_returns initNoTls 0 (plainConn 0) rfl rfl rfl

/-! ### C10 — free interleaving of plain and HTTPS connections -/

/-- C10: on a single server instance, connections are handled solely
according to their own listener and transport: for any two distinct
connections (say one HTTPS and one plain), every interleaving of their
accept/service events delivers to each exactly the outcome it receives in
isolation, computed from the immutable configuration and that connection
alone — no state from one affects the handling of the other. -/
theorem mixed_protocols_independent
    (s : ServerState) (a b : ConnSpec)
    (hl : s.listening = true) (ht : s.table = []) (hab : a.id ≠ b.id) :
    (runEvents s [.accept a, .handle a.id]).outcomes
      = s.outcomes ++ [(a.id, handleConnection s.tlsConfig s.docRoot a)]
    ∧ (runEvents s [.accept a, .handle a.id, .accept b, .handle b.id]).outcomes
      = s.outcomes ++ [(a.id, handleConnection s.tlsConfig s.docRoot a),
          (b.id, handleConnection s.tlsConfig s.docRoot b)]
    ∧ (runEvents s [.accept a, .accept b, .handle a.id, .handle b.id]).outcomes
      = s.outcomes ++ [(a.id, handleConnection s.tlsConfig s.docRoot a),
          (b.id, handleConnection s.tlsConfig s.docRoot b)]
    ∧ (runEvents s [.accept a, .accept b, .handle b.id, .handle a.id]).outcomes
      = s.outcomes ++ [(b.id, handleConnection s.tlsConfig s.docRoot b),
          (a.id, handleConnection s.tlsConfig s.docRoot a)] := by
  refine ⟨?_, ?_, ?_, ?_⟩ <;>
    simp [runEvents, step, findConn, ht, hl, hab, List.find?_cons,
          List.eraseP_cons]

/-- Witness for C10: the TLS-configured server of `test_mixed_protocols`
with one HTTPS connection (id 1) and one plain connection (id 2). -/
theorem mixed_protocols_independent_witness :
    (runEvents
        ⟨some ⟨[mockServerCert], mockServerKey, .NONE⟩, true, true, [], 0,
          none, [], []⟩
        [.accept ⟨1, .tlsReq none localhostRequest true⟩,
         .handle (ConnSpec.id ⟨1, .tlsReq none localhostRequest true⟩)]).outcomes
      = [] ++ [(ConnSpec.id ⟨1, .tlsReq none localhostRequest true⟩,
          handleConnection (some ⟨[mockServerCert], mockServerKey, .NONE⟩)
            true ⟨1, .tlsReq none localhostRequest true⟩)]
    ∧ (runEvents
        ⟨some ⟨[mockServerCert], mockServerKey, .NONE⟩, true, true, [], 0,
          none, [], []⟩
        [.accept ⟨1, .tlsReq none localhostRequest true⟩,
         .handle (ConnSpec.id ⟨1, .tlsReq none localhostRequest true⟩),
         .accept ⟨2, .plainReq localhostRequest⟩,
         .handle (ConnSpec.id ⟨2, .plainReq localhostRequest⟩)]).outcomes
      = [] ++ [(ConnSpec.id ⟨1, .tlsReq none localhostRequest true⟩,
          handleConnection (some ⟨[mockServerCert], mockServerKey, .NONE⟩)
            true ⟨1, .tlsReq none localhostRequest true⟩),
          (ConnSpec.id ⟨2, .plainReq localhostRequest⟩,
          handleConnection (some ⟨[mockServerCert], mockServerKey, .NONE⟩)
            true ⟨2, .plainReq localhostRequest⟩)]
    ∧ (runEvents
        ⟨some ⟨[mockServerCert], mockServerKey, .NONE⟩, true, true, [], 0,
          none, [], []⟩
        [.accept ⟨1, .tlsReq none localhostRequest true⟩,
         .accept ⟨2, .plainReq localhostRequest⟩,
         .handle (ConnSpec.id ⟨1, .tlsReq none localhostRequest true⟩),
         .handle (ConnSpec.id ⟨2, .plainReq localhostRequest⟩)]).outcomes
      = [] ++ [(ConnSpec.id ⟨1, .tlsReq none localhostRequest true⟩,
          handleConnection (some ⟨[mockServerCert], mockServerKey, .NONE⟩)
            true ⟨1, .tlsReq none localhostRequest true⟩),
          (ConnSpec.id ⟨2, .plainReq localhostRequest⟩,
          handleConnection (some ⟨[mockServerCert], mockServerKey, .NONE⟩)
            true ⟨2, .plainReq localhostRequest⟩)]
    ∧ (runEvents
        ⟨some ⟨[mockServerCert], mockServerKey, .NONE⟩, true, true, [], 0,
          none, [], []⟩
        [.accept ⟨1, .tlsReq none localhostRequest true⟩,
         .accept ⟨2, .plainReq localhostRequest⟩,
         .handle (ConnSpec.id ⟨2, .plainReq localhostRequest⟩),
         .handle (ConnSpec.id ⟨1, .tlsReq none localhostRequest true⟩)]).outcomes
      = [] ++ [(ConnSpec.id ⟨2, .plainReq localhostRequest⟩,
          handleConnection (some ⟨[mockServerCert], mockServerKey, .NONE⟩)
            true ⟨2, .plainReq localhostRequest⟩),
          (ConnSpec.id ⟨1, .tlsReq none localhostRequest true⟩,
          handleConnection (some ⟨[mockServerCert], mockServerKey, .NONE⟩)
            true ⟨1, .tlsReq none localhostRequest true⟩)] :=
  mixed_protocols_independent
    ⟨some ⟨[mockServerCert], mockServerKey, .NONE⟩, true, true, [], 0,
      none, [], []⟩
    ⟨1, .tlsReq none localhostRequest true⟩
    ⟨2, .plainReq localhostRequest⟩ rfl rfl (by decide)

end CockpitTls
